import Mathlib

set_option maxRecDepth 100000

/-!
Verification development for the Backstage deployment guide repository.

The repository consists of configuration artifacts: a standalone Dockerfile
(src/Dockerfile), a markdown guide embedding two multi-stage Dockerfiles, a
docker-compose topology, app-config database-connection snippets, gcloud
build/push/deploy commands, and a Cypress end-to-end test configuration
(src/cypress.config.ts).  This file embeds those artifacts as Lean data and
proves or refutes the specification claims about them.
-/

namespace BackstageDemo

/-- A Dockerfile instruction, as written in the source files.  RUN commands
are kept verbatim as shell strings. -/
inductive Instr where
  | fromImage (image : String) (stageName : Option String)
  | runCmd (c : String)
  | workdir (d : String)
  | copyFiles (fromStage : Option String) (srcs : List String) (dst : String)
  | envVar (name value : String)
  | userDirective (u : String)
  | exposePort (p : Nat)
  | entrypoint (args : List String)
  | cmdDirective (args : List String)
  deriving DecidableEq, Repr

/-- The standalone single-stage Dockerfile at src/Dockerfile. -/
def srcDockerfile : List Instr := [
  Instr.fromImage "node:20" none,
  Instr.workdir "/app",
  Instr.copyFiles none ["package.json", "yarn.lock"] "./",
  Instr.runCmd "yarn install --frozen-lockfile",
  Instr.copyFiles none ["."] ".",
  Instr.runCmd "yarn build:backend --config app-config.production.yaml",
  Instr.exposePort 7007,
  Instr.cmdDirective ["yarn", "start"]
]

/-- The first multi-stage Dockerfile embedded in the guide (Step 3,
packages/backend/Dockerfile). -/
def backendDockerfile : List Instr := [
  Instr.fromImage "node:20-bullseye-slim" (some "build"),
  Instr.runCmd "apt-get update && apt-get install -y python3 g++ make build-essential libsqlite3-dev ca-certificates curl git && rm -rf /var/lib/apt/lists/*",
  Instr.workdir "/app",
  Instr.copyFiles none ["package.json", "yarn.lock"] "./",
  Instr.runCmd "yarn install --frozen-lockfile --production",
  Instr.copyFiles none ["."] ".",
  Instr.runCmd "yarn tsc && yarn build:backend",
  Instr.fromImage "node:20-bullseye-slim" none,
  Instr.workdir "/app",
  Instr.copyFiles (some "build") ["/app"] "/app",
  Instr.runCmd "chown -R node:node /app",
  Instr.userDirective "node",
  Instr.envVar "NODE_ENV" "production",
  Instr.exposePort 7007,
  Instr.entrypoint ["node", "packages/backend", "--config", "app-config.yaml"]
]

/-- The install command of the updated Dockerfile, with its retry fallback. -/
def updatedInstallCmd : String :=
  "yarn install --frozen-lockfile --network-timeout 300000 || yarn install --network-timeout 300000 && rm -rf \"$(yarn cache dir)\""

/-- The updated multi-stage Dockerfile embedded at the end of the guide. -/
def updatedDockerfile : List Instr := [
  Instr.fromImage "node:20-bullseye-slim" (some "build"),
  Instr.runCmd "apt-get update && apt-get install -y python3 g++ make build-essential libsqlite3-dev ca-certificates curl git && apt-get install -y --fix-missing git || (sleep 10 && apt-get install -y --fix-missing git) && rm -rf /var/lib/apt/lists/*",
  Instr.workdir "/app",
  Instr.copyFiles none ["package.json", "yarn.lock"] "./",
  Instr.runCmd updatedInstallCmd,
  Instr.copyFiles none ["."] ".",
  Instr.fromImage "node:20-bullseye-slim" none,
  Instr.workdir "/app",
  Instr.copyFiles (some "build") ["/app"] "/app",
  Instr.copyFiles (some "build") ["/app/yarn.lock", "/app/package.json", "/app/packages/backend/dist/skeleton.tar.gz"] "./",
  Instr.runCmd "tar xzf skeleton.tar.gz && rm skeleton.tar.gz",
  Instr.runCmd "yarn install --frozen-lockfile --production --network-timeout 300000 && rm -rf \"$(yarn cache dir)\"",
  Instr.copyFiles (some "build") ["/app/packages/backend/dist/bundle.tar.gz", "/app/app-config*.yaml"] "./",
  Instr.runCmd "tar xzf bundle.tar.gz && rm bundle.tar.gz",
  Instr.runCmd "chown -R node:node /app",
  Instr.userDirective "node",
  Instr.envVar "NODE_ENV" "production",
  Instr.exposePort 7007,
  Instr.envVar "BACKSTAGE_APP_PORT" "7007",
  Instr.envVar "POSTGRES_HOST" "postgres",
  Instr.envVar "POSTGRES_PORT" "5432",
  Instr.envVar "POSTGRES_USER" "backstage",
  Instr.envVar "POSTGRES_PASSWORD" "backstage",
  Instr.envVar "POSTGRES_DB" "backstage_plugin_app",
  Instr.entrypoint ["node", "packages/backend", "--config", "app-config.yaml", "--config", "app-config.production.yaml"]
]

/-- Number of build stages: one per FROM instruction. -/
def stageCount (df : List Instr) : Nat :=
  df.countP fun i => match i with
    | Instr.fromImage _ _ => true
    | _ => false

/-- The instructions of the final stage: everything from the last FROM
instruction on (for a single-stage file, the whole file). -/
def finalStage (df : List Instr) : List Instr :=
  df.foldl (fun acc i => match i with
    | Instr.fromImage _ _ => [i]
    | _ => acc ++ [i]) []

/-- The USER in effect at the end of the final stage, if any USER
instruction appears there. -/
def finalUser (df : List Instr) : Option String :=
  (finalStage df).foldl (fun acc i => match i with
    | Instr.userDirective u => some u
    | _ => acc) none

/-- The account the final-stage process runs as.  A stage with no USER
instruction runs as root: the node base images do not change the default
user, so the container process is root unless the Dockerfile switches. -/
def effectiveFinalUser (df : List Instr) : String :=
  (finalUser df).getD "root"

/-- Environment variables baked into the final stage by ENV instructions. -/
def finalStageEnv (df : List Instr) : List (String × String) :=
  (finalStage df).foldr (fun i acc => match i with
    | Instr.envVar n v => (n, v) :: acc
    | _ => acc) []

/-- All RUN command strings of a Dockerfile, in order. -/
def runCmds (df : List Instr) : List String :=
  df.foldr (fun i acc => match i with
    | Instr.runCmd c => c :: acc
    | _ => acc) []

/-- Ports named by EXPOSE instructions. -/
def exposedPorts (df : List Instr) : List Nat :=
  df.foldr (fun i acc => match i with
    | Instr.exposePort p => p :: acc
    | _ => acc) []

/-- pat is a leading piece of s (over character lists, structurally
recursive so that concrete instances reduce). -/
def charsLead : List Char → List Char → Bool
  | _, [] => true
  | [], _ :: _ => false
  | c :: cs, p :: ps => c == p && charsLead cs ps

/-- pat occurs somewhere inside s. -/
def charsContain (pat : List Char) : List Char → Bool
  | [] => charsLead [] pat
  | c :: cs => charsLead (c :: cs) pat || charsContain pat cs

/-- Substring test on strings. -/
def containsSub (s pat : String) : Bool :=
  charsContain pat.data s.data

/-- Split s at every occurrence of the nonempty pattern pat.  Fueled by the
length of s (each step consumes at least one character), so the recursion
is structural and concrete instances reduce. -/
def splitOnCharsAux (pat : List Char) : Nat → List Char → List Char → List (List Char)
  | 0, s, acc => [acc.reverse ++ s]
  | _ + 1, [], acc => [acc.reverse]
  | fuel + 1, c :: cs, acc =>
      if charsLead (c :: cs) pat then
        acc.reverse :: splitOnCharsAux pat fuel (List.drop (pat.length - 1) cs) []
      else
        splitOnCharsAux pat fuel cs (c :: acc)

/-- Split a character list on a pattern; an empty pattern splits nothing. -/
def splitOnChars (s pat : List Char) : List (List Char) :=
  match pat with
  | [] => [s]
  | _ :: _ => splitOnCharsAux pat (s.length + 1) s []

/-- Split a string on a substring pattern. -/
def splitSub (s pat : String) : List String :=
  (splitOnChars s.data pat.data).map fun l => String.mk l

/-- The alternative command paths of a shell command: POSIX sh runs the text
after a || only when what precedes it failed, so splitting on || lists the
alternative execution paths. -/
def shellAlternatives (c : String) : List String :=
  splitSub c "||"

/-- The alternatives of a RUN command that invoke yarn install. -/
def installAlternatives (c : String) : List String :=
  (shellAlternatives c).filter fun a => containsSub a "yarn install"

/-- Every yarn install path in every RUN command of the Dockerfile pins to
the lockfile via --frozen-lockfile. -/
def allInstallsFrozen (df : List Instr) : Bool :=
  (runCmds df).all fun c =>
    (installAlternatives c).all fun a => containsSub a "--frozen-lockfile"

/-- Success of a shell command of the form a || b: the composite succeeds
iff the first command succeeds or, the first having failed, the fallback
succeeds. -/
def shellOrElse (firstOk retryOk : Bool) : Bool :=
  firstOk || retryOk

/-- The five database connection environment variable names fixed by the
guide. -/
def dbEnvNames : List String :=
  ["POSTGRES_HOST", "POSTGRES_PORT", "POSTGRES_USER", "POSTGRES_PASSWORD", "POSTGRES_DB"]

/-- The image bakes a hard-coded ENV default for every one of the five
database connection variables. -/
def bakesAllDbDefaults (df : List Instr) : Bool :=
  dbEnvNames.all fun n => (finalStageEnv df).any fun p => p.1 == n

/-- A value in an app-config file: either a reference to an environment
variable, written as a dollar-brace placeholder in the YAML, or a literal. -/
inductive ConfigValue where
  | envRef (name : String)
  | literal (value : String)
  deriving DecidableEq, Repr

/-- The database connection block of an app-config file. -/
structure DbConnection where
  host : ConfigValue
  port : ConfigValue
  user : ConfigValue
  password : ConfigValue
  database : ConfigValue
  deriving DecidableEq, Repr

/-- The connection block of app-config.yaml from Step 2 of the guide. -/
def appConfigConnection : DbConnection :=
  { host := ConfigValue.envRef "POSTGRES_HOST"
  , port := ConfigValue.envRef "POSTGRES_PORT"
  , user := ConfigValue.envRef "POSTGRES_USER"
  , password := ConfigValue.envRef "POSTGRES_PASSWORD"
  , database := ConfigValue.envRef "POSTGRES_DB" }

/-- The connection block of app-config.production.yaml from Step 7 of the
guide, written for Cloud SQL with literal values. -/
def cloudSqlProductionConnection : DbConnection :=
  { host := ConfigValue.literal "your-cloud-sql-instance-ip"
  , port := ConfigValue.literal "5432"
  , user := ConfigValue.literal "backstage"
  , password := ConfigValue.literal "your-secure-password"
  , database := ConfigValue.literal "backstage_plugin_app" }

/-- The connection block of app-config.production.yaml from the Next Steps
section at the end of the guide, rewritten to use environment variables. -/
def envProductionConnection : DbConnection :=
  { host := ConfigValue.envRef "POSTGRES_HOST"
  , port := ConfigValue.envRef "POSTGRES_PORT"
  , user := ConfigValue.envRef "POSTGRES_USER"
  , password := ConfigValue.envRef "POSTGRES_PASSWORD"
  , database := ConfigValue.envRef "POSTGRES_DB" }

/-- Whether a config value is an environment-variable reference. -/
def isEnvRef : ConfigValue → Bool
  | ConfigValue.envRef _ => true
  | ConfigValue.literal _ => false

/-- The five values of a connection block, in declaration order. -/
def connectionValues (c : DbConnection) : List ConfigValue :=
  [c.host, c.port, c.user, c.password, c.database]

/-- Every connection parameter is drawn from an environment variable. -/
def allFromEnv (c : DbConnection) : Bool :=
  (connectionValues c).all isEnvRef

/-- A service entry of the docker-compose file.  Fields absent from the
YAML are none or empty; the compose file declares no healthcheck for
either service, and its depends_on uses the short list form. -/
structure ComposeService where
  image : Option String
  build : Option String
  containerName : String
  restart : String
  dependsOn : List String
  environment : List (String × String)
  ports : List (Nat × Nat)
  volumes : List (String × String)
  healthcheck : Option String
  deriving DecidableEq, Repr

/-- The postgres service of docker-compose.yml (the file appears verbatim
twice in the guide, at Step 4 and in the closing compose section). -/
def postgresService : ComposeService :=
  { image := some "postgres:15"
  , build := none
  , containerName := "backstage-db"
  , restart := "always"
  , dependsOn := []
  , environment :=
      [ ("POSTGRES_USER", "backstage")
      , ("POSTGRES_PASSWORD", "backstage")
      , ("POSTGRES_DB", "backstage_plugin_app") ]
  , ports := [(5432, 5432)]
  , volumes := [("postgres_data", "/var/lib/postgresql/data")]
  , healthcheck := none }

/-- The backstage service of docker-compose.yml. -/
def backstageService : ComposeService :=
  { image := none
  , build := some "."
  , containerName := "backstage-app"
  , restart := "always"
  , dependsOn := ["postgres"]
  , environment :=
      [ ("POSTGRES_HOST", "postgres")
      , ("POSTGRES_PORT", "5432")
      , ("POSTGRES_USER", "backstage")
      , ("POSTGRES_PASSWORD", "backstage")
      , ("POSTGRES_DB", "backstage_plugin_app") ]
  , ports := [(7007, 7007)]
  , volumes := []
  , healthcheck := none }

/-- The whole docker-compose.yml: two services and one named volume. -/
structure ComposeFile where
  services : List (String × ComposeService)
  volumes : List String
  deriving DecidableEq, Repr

/-- docker-compose.yml as declared in the guide. -/
def dockerCompose : ComposeFile :=
  { services := [("postgres", postgresService), ("backstage", backstageService)]
  , volumes := ["postgres_data"] }

/-- Compose short-form depends_on entries carry the default condition
service_started: the dependency container must have been started, with no
requirement that it be healthy or ready. -/
def dependsOnConditions (s : ComposeService) : List (String × String) :=
  s.dependsOn.map fun d => (d, "service_started")

/-- Whether the service start is gated on a dependency being healthy. -/
def healthGating (s : ComposeService) : Bool :=
  (dependsOnConditions s).any fun p => p.2 == "service_healthy"

/-- A docker build invocation from the guide: optional platform flag, the
image tag, optional Dockerfile path. -/
structure DockerBuild where
  platform : Option String
  tag : String
  file : Option String
  deriving DecidableEq, Repr

/-- Step 8 build command: docker build -t gcr.io/YOUR_PROJECT_ID/backstage . -/
def dockerBuildStep8 : DockerBuild :=
  { platform := none, tag := "gcr.io/YOUR_PROJECT_ID/backstage", file := none }

/-- The cross-platform build command from the guide summary:
docker build --platform linux/amd64 -t gcr.io/northern-cooler-448817-b0/backstage
-f packages/backend/Dockerfile . -/
def crossPlatformBuild : DockerBuild :=
  { platform := some "linux/amd64"
  , tag := "gcr.io/northern-cooler-448817-b0/backstage"
  , file := some "packages/backend/Dockerfile" }

/-- The tag pushed in Step 8: docker push gcr.io/YOUR_PROJECT_ID/backstage. -/
def dockerPushTag : String := "gcr.io/YOUR_PROJECT_ID/backstage"

/-- The gcloud run deploy invocation of Step 9. -/
structure CloudRunDeploy where
  serviceName : String
  image : String
  platform : String
  region : String
  allowUnauthenticated : Bool
  setEnvVars : List (String × String)
  deriving DecidableEq, Repr

/-- Step 9 deploy command with its --set-env-vars list. -/
def step9Deploy : CloudRunDeploy :=
  { serviceName := "backstage"
  , image := "gcr.io/YOUR_PROJECT_ID/backstage"
  , platform := "managed"
  , region := "YOUR_REGION"
  , allowUnauthenticated := true
  , setEnvVars :=
      [ ("POSTGRES_HOST", "your-cloud-sql-instance-ip")
      , ("POSTGRES_PORT", "5432")
      , ("POSTGRES_USER", "backstage")
      , ("POSTGRES_PASSWORD", "your-secure-password")
      , ("POSTGRES_DB", "backstage_plugin_app") ]
  }

/-- A built image as reported by docker inspect: its tag and architecture. -/
structure DockerImage where
  tag : String
  architecture : String
  deriving DecidableEq, Repr

/-- The architecture component of a platform flag such as linux/amd64. -/
def archOfPlatform (p : String) : String :=
  match splitSub p "/" with
  | [_, a] => a
  | _ => p

/-- Modelled from the spec: the build invocation surface takes a target
platform flag and an image tag, and the produced image reports the
architecture of the flag when one is given, the build host architecture
otherwise (the architecture mismatch the guide checks with docker inspect). -/
def buildImage (hostArch : String) (b : DockerBuild) : DockerImage :=
  { tag := b.tag
  , architecture := (b.platform.map archOfPlatform).getD hostArch }

/-- The Cypress e2e block of src/cypress.config.ts. -/
structure CypressE2EConfig where
  baseUrl : String
  specPattern : String
  deriving DecidableEq, Repr

/-- The Cypress configuration of src/cypress.config.ts. -/
structure CypressConfig where
  viewportHeight : Nat
  viewportWidth : Nat
  e2e : CypressE2EConfig
  deriving DecidableEq, Repr

/-- src/cypress.config.ts as passed to defineConfig. -/
def cypressConfig : CypressConfig :=
  { viewportHeight := 1080
  , viewportWidth := 1920
  , e2e :=
    { baseUrl := "http://localhost:3000/"
    , specPattern := "cypress/e2e/**/*.\x7bjs,jsx,ts,tsx\x7d" } }

/-- Decimal value of a nonempty list of digit characters. -/
def digitsVal : List Char → Option Nat
  | [] => none
  | l => l.foldl (fun acc c => match acc with
      | none => none
      | some n => if c.isDigit then some (n * 10 + (c.toNat - 48)) else none)
      (some 0)

/-- The port of a URL of the shape scheme://host:port/path. -/
def urlPort (u : String) : Option Nat :=
  match splitSub u "://" with
  | [_, rest] =>
    match splitSub rest "/" with
    | hostport :: _ =>
      match splitSub hostport ":" with
      | [_, p] => digitsVal p.data
      | _ => none
    | _ => none
  | _ => none

/-- Modelled from the spec: a lockfile-pinned install resolves exactly the
versions recorded in the lockfile; an unpinned install resolves from the
registry state current at install time. -/
def installResult (frozen : Bool) (lockfile registry : List (String × String)) :
    List (String × String) :=
  if frozen then lockfile else registry

/-- Database container phase during startup. -/
inductive DbPhase where
  | starting
  | ready
  deriving DecidableEq, Repr

/-- Application server container phase. -/
inductive AppPhase where
  | notStarted
  | connecting
  | crashed
  | serving
  deriving DecidableEq, Repr

/-- Joint state of the two-service topology. -/
structure TopoState where
  db : DbPhase
  app : AppPhase
  deriving DecidableEq, Repr

/-- Modelled from the spec: the application server must not serve requests
before its database is reachable, so an attempt to connect while the
database is still starting crashes the server process; the compose file
contributes the start-order gate (depends_on, short form: no readiness
condition unless gated) and the restart policy that revives a crashed
server.  The relation is parameterized by the restart policy string and by
whether the dependency is health-gated, both read off backstageService. -/
inductive TopoStep (restartPolicy : String) (gated : Bool) :
    TopoState → TopoState → Prop where
  | dbBecomesReady (a : AppPhase) :
      TopoStep restartPolicy gated ⟨DbPhase.starting, a⟩ ⟨DbPhase.ready, a⟩
  | appStarts (d : DbPhase) (hg : gated = true → d = DbPhase.ready) :
      TopoStep restartPolicy gated ⟨d, AppPhase.notStarted⟩ ⟨d, AppPhase.connecting⟩
  | connectFails :
      TopoStep restartPolicy gated ⟨DbPhase.starting, AppPhase.connecting⟩
        ⟨DbPhase.starting, AppPhase.crashed⟩
  | connectSucceeds :
      TopoStep restartPolicy gated ⟨DbPhase.ready, AppPhase.connecting⟩
        ⟨DbPhase.ready, AppPhase.serving⟩
  | restartApp (d : DbPhase) (hr : restartPolicy = "always") :
      TopoStep restartPolicy gated ⟨d, AppPhase.crashed⟩ ⟨d, AppPhase.connecting⟩

/-- The step relation of the compose topology as declared. -/
def ComposeStep : TopoState → TopoState → Prop :=
  TopoStep backstageService.restart (healthGating backstageService)

/-- Both containers freshly created: database starting, server not yet
started. -/
def topoInit : TopoState := ⟨DbPhase.starting, AppPhase.notStarted⟩

/-- Reachability under the compose topology step relation. -/
def Reach : TopoState → TopoState → Prop :=
  Relation.ReflTransGen ComposeStep

/-- State of the database host: named-volume contents, the identity of the
current database container instance, and that container's own writable
filesystem layer. -/
structure VolumeState where
  volumeContents : List (String × List String)
  containerId : Nat
  containerFs : List String
  deriving DecidableEq, Repr

/-- A lifecycle operation on the database container. -/
inductive ContainerOp where
  | restartOp
  | replaceOp (newId : Nat)
  deriving DecidableEq, Repr

/-- Modelled from the spec: a named volume outlives any single container
instance.  Restarting keeps the container and its layer; replacing swaps in
a fresh container with an empty writable layer; neither touches the
contents of named volumes. -/
def applyOp (s : VolumeState) : ContainerOp → VolumeState
  | ContainerOp.restartOp => s
  | ContainerOp.replaceOp newId =>
      { volumeContents := s.volumeContents, containerId := newId, containerFs := [] }

/-- Apply a sequence of container lifecycle operations. -/
def applyOps (s : VolumeState) (ops : List ContainerOp) : VolumeState :=
  ops.foldl applyOp s

/-! ## Theorems settling the claims -/

/-- Claim C1 as stated is false: in production mode, hard-coded fallback
values for the database connection are reachable.  The Step 7
app-config.production.yaml hard-codes the password as a literal, and the
updated production image bakes a hard-coded ENV default for
POSTGRES_PASSWORD, both read by the production entrypoint. -/
theorem c1_hard_coded_fallbacks_counterexample :
    allFromEnv cloudSqlProductionConnection = false
    ∧ cloudSqlProductionConnection.password = ConfigValue.literal "your-secure-password"
    ∧ ("POSTGRES_PASSWORD", "backstage") ∈ finalStageEnv updatedDockerfile := by
  refine ⟨rfl, rfl, ?_⟩
  decide

/-- Claim C1 amended: the app-config.yaml of Step 2 and the rewritten
app-config.production.yaml of the Next Steps section draw all five
connection parameters from environment variables, but the Step 7
app-config.production.yaml hard-codes all five as literals, and the
updated production image bakes hard-coded ENV defaults for all five
POSTGRES variables in its final stage, so hard-coded fallback values
remain reachable in production mode. -/
theorem c1_env_parameterization_amended :
    allFromEnv appConfigConnection = true
    ∧ allFromEnv envProductionConnection = true
    ∧ allFromEnv cloudSqlProductionConnection = false
    ∧ bakesAllDbDefaults updatedDockerfile = true
    ∧ bakesAllDbDefaults srcDockerfile = false
    ∧ bakesAllDbDefaults backendDockerfile = false := by
  decide

/-- Claim C2 as stated is false: the standalone Dockerfile at
src/Dockerfile is a single-stage build, and its only stage both installs
dependencies and keeps them, so compile-time dependencies are not
discarded. -/
theorem c2_single_stage_counterexample :
    stageCount srcDockerfile = 1
    ∧ Instr.runCmd "yarn install --frozen-lockfile" ∈ finalStage srcDockerfile := by
  refine ⟨rfl, ?_⟩
  decide

/-- Claim C2 amended: the two Dockerfiles embedded in the guide are
two-phase builds whose final stage copies from the build stage, but the
standalone src/Dockerfile is a single-stage build, and even the two-phase
runtime stages copy the entire build-stage tree /app rather than only the
compiled output and production dependencies. -/
theorem c2_build_stages_amended :
    stageCount srcDockerfile = 1
    ∧ stageCount backendDockerfile = 2
    ∧ stageCount updatedDockerfile = 2
    ∧ Instr.copyFiles (some "build") ["/app"] "/app" ∈ finalStage backendDockerfile
    ∧ Instr.copyFiles (some "build") ["/app"] "/app" ∈ finalStage updatedDockerfile := by
  refine ⟨rfl, rfl, rfl, ?_, ?_⟩ <;> decide

/-- Claim C3 as stated is false: src/Dockerfile has no USER instruction,
so the process of its image runs as root. -/
theorem c3_root_user_counterexample :
    effectiveFinalUser srcDockerfile = "root" := by
  rfl

/-- Claim C3 amended: the final stages of the two multi-stage Dockerfiles
in the guide switch to the non-privileged node account, but the standalone
src/Dockerfile declares no USER and its process runs as root. -/
theorem c3_final_user_amended :
    finalUser srcDockerfile = none
    ∧ effectiveFinalUser srcDockerfile = "root"
    ∧ effectiveFinalUser backendDockerfile = "node"
    ∧ effectiveFinalUser updatedDockerfile = "node"
    ∧ "node" ≠ "root" := by
  refine ⟨rfl, rfl, rfl, rfl, ?_⟩
  decide

/-- Claim C4 as stated is false: the retry path of the install command in
the updated Dockerfile omits --frozen-lockfile, so not every dependency
installation path is pinned to the lockfile, and when that unpinned path
runs, two builds seeing different registry states produce different
dependency versions. -/
theorem c4_unfrozen_retry_counterexample :
    allInstallsFrozen updatedDockerfile = false
    ∧ installResult false [("pg", "8.11.3")] [("pg", "8.11.3")]
        ≠ installResult false [("pg", "8.11.3")] [("pg", "8.12.0")] := by
  refine ⟨?_, ?_⟩ <;> decide

/-- Claim C4 amended: every install path of src/Dockerfile and of the
first embedded Dockerfile is pinned with --frozen-lockfile, and pinned
installs are deterministic across registry states; the updated Dockerfile
has an unpinned retry path, so its build is only deterministic when the
first, pinned install attempt succeeds. -/
theorem c4_lockfile_pinning_amended :
    allInstallsFrozen srcDockerfile = true
    ∧ allInstallsFrozen backendDockerfile = true
    ∧ allInstallsFrozen updatedDockerfile = false
    ∧ (∀ (lock r1 r2 : List (String × String)),
        installResult true lock r1 = installResult true lock r2) := by
  refine ⟨by decide, by decide, by decide, ?_⟩
  intro lock r1 r2
  rfl

/-- Claim C5: the dependency install of the updated Dockerfile does not
fail immediately on a network timeout: the RUN command is of the shape
first-install or-else retry-install, the retry is a yarn install carrying
the extended network timeout of 300000 ms, and under shell or-else
semantics the step succeeds whenever the retry succeeds even though the
first attempt failed. -/
theorem c5_install_retry :
    updatedInstallCmd ∈ runCmds updatedDockerfile
    ∧ (shellAlternatives updatedInstallCmd).length = 2
    ∧ containsSub ((shellAlternatives updatedInstallCmd).getD 1 "") "yarn install" = true
    ∧ containsSub ((shellAlternatives updatedInstallCmd).getD 1 "")
        "--network-timeout 300000" = true
    ∧ (∀ retryOk : Bool, shellOrElse false retryOk = retryOk)
    ∧ shellOrElse false true = true := by
  refine ⟨by decide, by decide, by decide, by decide, ?_, rfl⟩
  intro retryOk
  cases retryOk <;> rfl

/-- Any single topology step leaves the server serving only with the
database ready, whatever the previous state was. -/
theorem topoStep_post_serving {rp : String} {g : Bool} {s t : TopoState}
    (h : TopoStep rp g s t) : t.app = AppPhase.serving → t.db = DbPhase.ready := by
  cases h <;> intro hs <;> simp_all

/-- The start-order gate of the compose topology is not health-gated. -/
theorem backstage_not_health_gated : healthGating backstageService = false := by
  decide

/-- The compose restart policy of the backstage service. -/
theorem backstage_restart_always : backstageService.restart = "always" := rfl

/-- The crashed server state is reachable from the initial state while the
database is still starting. -/
theorem reach_crashed : Reach topoInit ⟨DbPhase.starting, AppPhase.crashed⟩ := by
  have h1 : ComposeStep topoInit ⟨DbPhase.starting, AppPhase.connecting⟩ :=
    TopoStep.appStarts DbPhase.starting
      (fun hg => absurd hg (by rw [backstage_not_health_gated]; decide))
  have h2 : ComposeStep ⟨DbPhase.starting, AppPhase.connecting⟩
      ⟨DbPhase.starting, AppPhase.crashed⟩ := TopoStep.connectFails
  exact Relation.ReflTransGen.head h1 (Relation.ReflTransGen.single h2)

/-- Claim C6: in the compose topology the server serves only once the
database is reachable, but the only mechanisms are the restart policy and
the short-form start-order dependency: no health gating exists, and with a
slow database the crashed server state repeats through restart cycles. -/
theorem c6_startup_ordering :
    backstageService.restart = "always"
    ∧ backstageService.dependsOn = ["postgres"]
    ∧ healthGating backstageService = false
    ∧ backstageService.healthcheck = none
    ∧ postgresService.healthcheck = none
    ∧ (∀ s : TopoState, Reach topoInit s → s.app = AppPhase.serving → s.db = DbPhase.ready)
    ∧ Reach topoInit ⟨DbPhase.starting, AppPhase.crashed⟩
    ∧ Relation.TransGen ComposeStep ⟨DbPhase.starting, AppPhase.crashed⟩
        ⟨DbPhase.starting, AppPhase.crashed⟩ := by
  refine ⟨rfl, rfl, backstage_not_health_gated, rfl, rfl, ?_, reach_crashed, ?_⟩
  · intro s h
    induction h with
    | refl => intro hs; exact absurd hs (by decide)
    | tail _ hbc _ => exact topoStep_post_serving hbc
  · have hr : ComposeStep ⟨DbPhase.starting, AppPhase.crashed⟩
        ⟨DbPhase.starting, AppPhase.connecting⟩ :=
      TopoStep.restartApp DbPhase.starting backstage_restart_always
    have hf : ComposeStep ⟨DbPhase.starting, AppPhase.connecting⟩
        ⟨DbPhase.starting, AppPhase.crashed⟩ := TopoStep.connectFails
    exact Relation.TransGen.head hr (Relation.TransGen.single hf)

/-- Witness for C6: the serving state reached by the run in which the
database becomes ready first indeed has the database ready. -/
theorem c6_startup_ordering_witness :
    (⟨DbPhase.ready, AppPhase.serving⟩ : TopoState).db = DbPhase.ready := by
  have h1 : ComposeStep topoInit ⟨DbPhase.ready, AppPhase.notStarted⟩ :=
    TopoStep.dbBecomesReady AppPhase.notStarted
  have h2 : ComposeStep ⟨DbPhase.ready, AppPhase.notStarted⟩
      ⟨DbPhase.ready, AppPhase.connecting⟩ :=
    TopoStep.appStarts DbPhase.ready (fun _ => rfl)
  have h3 : ComposeStep ⟨DbPhase.ready, AppPhase.connecting⟩
      ⟨DbPhase.ready, AppPhase.serving⟩ := TopoStep.connectSucceeds
  have hreach : Reach topoInit ⟨DbPhase.ready, AppPhase.serving⟩ :=
    Relation.ReflTransGen.head h1
      (Relation.ReflTransGen.head h2 (Relation.ReflTransGen.single h3))
  exact c6_startup_ordering.2.2.2.2.2.1 ⟨DbPhase.ready, AppPhase.serving⟩ hreach rfl

/-- Claim C7: the compose topology and the Step 9 Cloud Run deploy supply
the same five database environment variables, and the deploy runs the very
image tag that Step 8 builds and pushes. -/
theorem c7_env_contract_match :
    backstageService.environment.map Prod.fst = dbEnvNames
    ∧ step9Deploy.setEnvVars.map Prod.fst = dbEnvNames
    ∧ step9Deploy.image = dockerBuildStep8.tag
    ∧ step9Deploy.image = dockerPushTag := by
  refine ⟨rfl, rfl, rfl, rfl⟩

/-- Claim C8: a build invocation carrying a tag and a target-platform flag
produces an image with that tag whose reported architecture is the
architecture named by the flag. -/
theorem c8_platform_flag_architecture (hostArch : String) (b : DockerBuild)
    (p : String) (hp : b.platform = some p) :
    (buildImage hostArch b).tag = b.tag
    ∧ (buildImage hostArch b).architecture = archOfPlatform p := by
  refine ⟨rfl, ?_⟩
  simp [buildImage, hp]

/-- Witness for C8: the cross-platform build command of the guide, with
flag linux/amd64, from an arm64 build host. -/
theorem c8_platform_flag_architecture_witness :
    (buildImage "arm64" crossPlatformBuild).tag = crossPlatformBuild.tag
    ∧ (buildImage "arm64" crossPlatformBuild).architecture = archOfPlatform "linux/amd64" :=
  c8_platform_flag_architecture "arm64" crossPlatformBuild "linux/amd64" rfl

/-- Volume contents are invariant under any sequence of container
lifecycle operations. -/
theorem applyOps_volumeContents (ops : List ContainerOp) :
    ∀ s : VolumeState, (applyOps s ops).volumeContents = s.volumeContents := by
  induction ops with
  | nil => intro s; rfl
  | cons op rest ih =>
    intro s
    have hstep : (applyOp s op).volumeContents = s.volumeContents := by
      cases op <;> rfl
    calc (applyOps s (op :: rest)).volumeContents
        = (applyOps (applyOp s op) rest).volumeContents := rfl
      _ = (applyOp s op).volumeContents := ih (applyOp s op)
      _ = s.volumeContents := hstep

/-- Claim C9: the database files live on the named volume postgres_data
mounted at /var/lib/postgresql/data, the volume is declared at the top
level of the compose file, and its contents survive every sequence of
container restarts and replacements, even though replacement does reset
the container-local filesystem layer. -/
theorem c9_volume_persistence :
    postgresService.volumes = [("postgres_data", "/var/lib/postgresql/data")]
    ∧ "postgres_data" ∈ dockerCompose.volumes
    ∧ (∀ (s : VolumeState) (ops : List ContainerOp),
        (applyOps s ops).volumeContents = s.volumeContents)
    ∧ (∃ s : VolumeState,
        (applyOp s (ContainerOp.replaceOp 1)).containerFs ≠ s.containerFs) := by
  refine ⟨rfl, by decide, ?_, ?_⟩
  · intro s ops
    exact applyOps_volumeContents ops s
  · exact ⟨⟨[], 0, ["pgstartup.log"]⟩, by decide⟩

/-- Claim C10: the Cypress configuration targets port 3000 of localhost,
while the images expose and the compose topology publishes port 7007, so
the e2e tests never address the exposed port of the containerized
server. -/
theorem c10_port_mismatch :
    urlPort cypressConfig.e2e.baseUrl = some 3000
    ∧ exposedPorts srcDockerfile = [7007]
    ∧ exposedPorts backendDockerfile = [7007]
    ∧ exposedPorts updatedDockerfile = [7007]
    ∧ backstageService.ports = [(7007, 7007)]
    ∧ urlPort cypressConfig.e2e.baseUrl ≠ some 7007
    ∧ (backstageService.ports.all fun pr => pr.1 != 3000) = true := by
  refine ⟨by decide, rfl, rfl, rfl, rfl, by decide, by decide⟩

end BackstageDemo
